import Mathlib

/-!
Verification of the Saba Quote Builder backend: a shallow embedding of the
pricing calculator and quote aggregator described by the specification, of the
settings, quotes, products and customers route handlers, and of the
password-hashing helpers, together with theorems settling the specified
properties. Monetary values are rationals (the source uses JS numbers on
DECIMAL columns; every value occurring here is exactly representable).
-/

namespace QuoteBuilder

/-- One volume-discount tier of a pricing-settings document
(settings schema, src/settings.js and src/unnamed/part_000): an inclusive
case-count range mapping to a freight discount percent. -/
structure VolumeTier where
  minCases : ℕ
  maxCases : ℕ
  discount : ℚ
deriving DecidableEq

/-- One named delivery region of a pricing-settings document. -/
structure Region where
  id : String
  name : String
  distance : ℚ
deriving DecidableEq

/-- Customer types that the settings document keys margins by
(marginFoodBank, marginSchool, marginCorporate in src/settings.js). -/
inductive CustomerType where
  | foodBank
  | school
  | corporate
deriving DecidableEq

/-- A fully-populated pricing-settings document, as produced by
getDefaultSettings in src/settings.js. -/
structure PricingSettings where
  baseFreightRate : ℚ
  perMileRate : ℚ
  palletBreakSurcharge : ℚ
  minFreight : ℚ
  marginFoodBank : ℚ
  marginSchool : ℚ
  marginCorporate : ℚ
  volumeTiers : List VolumeTier
  regions : List Region
deriving DecidableEq

/-- The customer-type default margin from a settings document. -/
def defaultMargin (s : PricingSettings) : CustomerType → ℚ
  | .foodBank => s.marginFoodBank
  | .school => s.marginSchool
  | .corporate => s.marginCorporate

/-- A product of the catalog (products table, src/customers.js schema part):
the fields the pricing calculator and the product routes read. -/
structure Product where
  id : ℕ
  organization_id : ℕ
  name : String
  casesPerPallet : ℕ
  costPerCase : ℚ
  bipoc : Bool
  gapCertified : Bool
  available : Bool
deriving DecidableEq

/-- Error taxonomy of the pricing calculator (spec section 7). -/
inductive PriceError where
  | invalidInput
deriving DecidableEq

/-- Result record of the pricing calculator contract. -/
structure PriceResult where
  unit_cost : ℚ
  freight_cost : ℚ
  line_total : ℚ
deriving DecidableEq

/-- First tier whose inclusive range contains the case count
(first match in declaration order). -/
def findTier (tiers : List VolumeTier) (cases : ℕ) : Option VolumeTier :=
  tiers.find? (fun t => decide (t.minCases ≤ cases ∧ cases ≤ t.maxCases))

/-- Ceiling division on naturals, for the pallet count. -/
def ceilDiv (a b : ℕ) : ℕ := (a + b - 1) / b

/-- Modelled from the spec: the pricing calculator price_line (spec section
4.1) is absent from the backend source (the pricing logic lives client-side;
only the settings schema and the AI prompt builder reflect it). The definition
follows the formulas of section 4.1, which section 9 designates as the
reference design: fail with InvalidInput when cases is nonpositive or
non-integer; freight per pallet is baseFreightRate + perMileRate * distance;
a case count that does not evenly divide casesPerPallet incurs the
palletBreakSurcharge percent additionally on the fractional pallets share of
the freight (one pallets worth, since freight is billed per ceil pallet);
the first matching volume tier discounts the freight component only; freight
floors at minFreight; sale price per case is costPerCase marked up by the
margin (the explicit override, or else the customer-type default). -/
def price_line (product : Product) (cases : ℚ) (customer_type : CustomerType)
    (distance : ℚ) (settings : PricingSettings) (marginOverride : Option ℚ) :
    Except PriceError PriceResult :=
  if cases ≤ 0 ∨ cases.den ≠ 1 then .error .invalidInput
  else
    let n : ℕ := cases.num.toNat
    let cpp := product.casesPerPallet
    let pallets := ceilDiv n cpp
    let freightPerPallet := settings.baseFreightRate + settings.perMileRate * distance
    let surcharge : ℚ :=
      if cpp ≠ 0 ∧ n % cpp ≠ 0 then settings.palletBreakSurcharge / 100 * freightPerPallet
      else 0
    let baseFreight := (pallets : ℚ) * freightPerPallet + surcharge
    let discount := (findTier settings.volumeTiers n).elim 0 (fun t => t.discount)
    let discounted := baseFreight * (1 - discount / 100)
    let freight_total := max settings.minFreight discounted
    let margin := marginOverride.getD (defaultMargin settings customer_type)
    let salePerCase := product.costPerCase * (1 + margin / 100)
    .ok { unit_cost := product.costPerCase
          freight_cost := freight_total
          line_total := salePerCase * cases + freight_total }

/-- The default volume tiers of getDefaultSettings (src/settings.js 154-159). -/
def defaultVolumeTiers : List VolumeTier :=
  [⟨0, 50, 0⟩, ⟨51, 150, 8⟩, ⟨151, 300, 15⟩, ⟨301, 9999, 22⟩]

/-- The default regions of getDefaultSettings (src/settings.js 160-168). -/
def defaultRegions : List Region :=
  [⟨"east-bay", "East Bay", 25⟩, ⟨"sf", "San Francisco", 40⟩,
   ⟨"south-bay", "South Bay", 55⟩, ⟨"central-coast", "Central Coast", 120⟩,
   ⟨"sacramento", "Sacramento", 85⟩, ⟨"central-valley", "Central Valley", 150⟩,
   ⟨"socal", "Southern California", 400⟩]

/-- The settings of the worked example of spec section 8 (these coincide with
getDefaultSettings of src/settings.js, whose tier list contains the 51-150
tier with 8 percent discount and whose food-bank margin is 20). -/
def exampleSettings : PricingSettings :=
  { baseFreightRate := 125
    perMileRate := 0.85
    palletBreakSurcharge := 15
    minFreight := 75
    marginFoodBank := 20
    marginSchool := 15
    marginCorporate := 25
    volumeTiers := defaultVolumeTiers
    regions := defaultRegions }

/-- The product of the worked example: cost 26.95 per case, 49 cases per
pallet (the Apples, Gala row of the seed data, src/unnamed/part_000). -/
def exampleProduct : Product :=
  { id := 1
    organization_id := 1
    name := "Apples, Gala"
    casesPerPallet := 49
    costPerCase := 26.95
    bipoc := false
    gapCertified := true
    available := true }

/-- Full evaluation of price_line on the worked example of spec section 8. -/
theorem price_line_example :
    price_line exampleProduct 100 CustomerType.foodBank 40 exampleSettings none =
      .ok { unit_cost := 26.95, freight_cost := 460.782, line_total := 3694.782 } := by
  have h : findTier defaultVolumeTiers 100 = some ⟨51, 150, 8⟩ := rfl
  simp only [price_line, exampleProduct, exampleSettings, ceilDiv, defaultMargin,
    max_def, Option.getD_none, Option.elim,
    show ((100 : ℚ).num).toNat = 100 from rfl]
  norm_num [h]

/-- Claim C1 (counterexample): on the worked example of spec section 8
(100 cases, 49 per pallet, distance 40), price_line does not return
freight_cost 439.08 and line_total 3673.08: that trace omits the
pallet-break surcharge that section 4.1 mandates, though 100 cases do not
evenly divide 49 per pallet. -/
theorem C1_counterexample :
    price_line exampleProduct 100 CustomerType.foodBank 40 exampleSettings none ≠
      .ok { unit_cost := 26.95, freight_cost := 439.08, line_total := 3673.08 } := by
  rw [price_line_example]
  intro hc
  have h2 := congrArg PriceResult.freight_cost (Except.ok.inj hc)
  norm_num at h2

/-- Claim C1 (amended): on the worked example input, price_line returns
unit_cost 26.95, freight_cost 460.782 and line_total 3694.782: pallets
= ceil(100/49) = 3, freight per pallet = 125 + 0.85 * 40 = 159, the broken
third pallet adds a 15 percent surcharge on one pallets freight (23.85),
base freight = 477 + 23.85 = 500.85, the 51-150 tier discounts 8 percent
giving 460.782 (above the 75 floor), sale price per case = 26.95 * 1.20
= 32.34, and line_total = 32.34 * 100 + 460.782. -/
theorem C1_amended_eval :
    price_line exampleProduct 100 CustomerType.foodBank 40 exampleSettings none =
      .ok { unit_cost := 26.95, freight_cost := 460.782, line_total := 3694.782 } :=
  price_line_example

/-- Claim C6: whenever the requested case count is nonpositive or not an
integer, price_line fails with InvalidInput; being a pure function into
Except, the error result carries no partial output. -/
theorem C6_invalid_cases (product : Product) (ct : CustomerType) (distance : ℚ)
    (settings : PricingSettings) (mo : Option ℚ) (cases : ℚ)
    (h : cases ≤ 0 ∨ cases.den ≠ 1) :
    price_line product cases ct distance settings mo = .error .invalidInput := by
  unfold price_line
  rw [if_pos h]

/-- Claim C6 (witness): zero cases is rejected with InvalidInput on the
worked-example product and settings. -/
theorem C6_witness :
    ((0 : ℚ) ≤ 0 ∨ (0 : ℚ).den ≠ 1) ∧
    price_line exampleProduct 0 CustomerType.foodBank 40 exampleSettings none =
      .error .invalidInput :=
  ⟨Or.inl le_rfl,
   C6_invalid_cases exampleProduct CustomerType.foodBank 40 exampleSettings none 0
     (Or.inl le_rfl)⟩

/-- A line item of the quote context sent to the AI routes
(src/ai.js buildSystemPrompt): the fields the prompt builder reads.
Absent JS fields are modelled as none. -/
structure ContextItem where
  product : String
  cases : Option ℚ
  pricePerCase : Option ℚ
  marginPercent : ℚ
  lineTotal : Option ℚ
  bipoc : Bool
deriving DecidableEq

/-- Sum of cases across items, absent cases counting as 0
(src/ai.js line 192: reduce of i.cases or 0). -/
def totalCases (items : List ContextItem) : ℚ :=
  items.foldr (fun i s => i.cases.getD 0 + s) 0

/-- Sum of line totals across items, absent totals counting as 0
(src/ai.js line 193: reduce of i.lineTotal or 0). -/
def totalValue (items : List ContextItem) : ℚ :=
  items.foldr (fun i s => i.lineTotal.getD 0 + s) 0

/-- Count of items whose bipoc flag is set
(src/ai.js line 194: filter on i.bipoc, then length). -/
def bipocCount (items : List ContextItem) : ℕ :=
  (items.filter (fun i => i.bipoc)).length

/-- Summary record of the quote aggregator contract (spec section 4.2). -/
structure QuoteSummary where
  total_cases : ℚ
  total_value : ℚ
  bipoc_fraction : ℚ
deriving DecidableEq

/-- Modelled from the spec: summarize (spec section 4.2) is not a named
function in the backend; its three sums are the ones inlined in
buildSystemPrompt (src/ai.js 191-198), and the empty-quote case returns zeros
as section 4.2 specifies (buildSystemPrompt guards on a nonempty item list
and simply omits the aggregate section when there are no items, so no
division by zero and no error occurs there). -/
def summarize (items : List ContextItem) : QuoteSummary :=
  { total_cases := totalCases items
    total_value := totalValue items
    bipoc_fraction :=
      if items.length = 0 then 0 else (bipocCount items : ℚ) / (items.length : ℚ) }

/-- Claim C2: the aggregator computes bipoc_fraction as the count of items
with the BIPOC flag divided by the item count, which always lies in [0, 1];
and on the empty item list summarize returns all three fields zero. -/
theorem C2_bipoc_fraction (items : List ContextItem) :
    (items.length ≠ 0 →
      (summarize items).bipoc_fraction = (bipocCount items : ℚ) / (items.length : ℚ)) ∧
    0 ≤ (summarize items).bipoc_fraction ∧
    (summarize items).bipoc_fraction ≤ 1 ∧
    summarize [] = ⟨0, 0, 0⟩ := by
  refine ⟨fun hne => by simp [summarize, hne], ?_, ?_, by simp [summarize, totalCases, totalValue]⟩
  · by_cases h : items.length = 0
    · simp [summarize, h]
    · simp only [summarize, h, if_false]
      positivity
  · by_cases h : items.length = 0
    · simp [summarize, h]
    · simp only [summarize, h, if_false]
      rw [div_le_one (by positivity)]
      exact_mod_cast List.length_filter_le _ _

/-- A sample context item: one BIPOC line. -/
def sampleItem : ContextItem :=
  { product := "Mandarins"
    cases := some 100
    pricePerCase := some 32.34
    marginPercent := 20
    lineTotal := some 3694.782
    bipoc := true }

/-- Claim C2 (witness): on the singleton list of the sample item, the
fraction equation and the bounds hold, and the empty summary is zero. -/
theorem C2_witness :
    ((summarize [sampleItem]).bipoc_fraction =
      (bipocCount [sampleItem] : ℚ) / (([sampleItem] : List ContextItem).length : ℚ)) ∧
    0 ≤ (summarize [sampleItem]).bipoc_fraction ∧
    (summarize [sampleItem]).bipoc_fraction ≤ 1 ∧
    summarize [] = ⟨0, 0, 0⟩ :=
  ⟨(C2_bipoc_fraction [sampleItem]).1 (by simp), (C2_bipoc_fraction [sampleItem]).2.1,
   (C2_bipoc_fraction [sampleItem]).2.2.1, (C2_bipoc_fraction [sampleItem]).2.2.2⟩

/-- Quote status values (quotes table, status column: draft is the default). -/
inductive QuoteStatus where
  | draft
  | sent
  | accepted
  | rejected
  | expired
deriving DecidableEq

/-- The terminal statuses of the spec (section 3): rejection and expiry. -/
def QuoteStatus.isTerminal : QuoteStatus → Bool
  | .rejected => true
  | .expired => true
  | _ => false

/-- A row of the quotes table (the columns the delete and finalize
handlers touch). -/
structure QuoteRow where
  id : ℕ
  organization_id : ℕ
  status : QuoteStatus
deriving DecidableEq

/-- A row of the quote_items table (the columns the delete handler touches). -/
structure QuoteItemRow where
  id : ℕ
  quote_id : ℕ
deriving DecidableEq

/-- The tables the quote routes operate on. -/
structure Db where
  quotes : List QuoteRow
  quote_items : List QuoteItemRow
deriving DecidableEq

/-- An HTTP status code. -/
abbrev HttpStatus := ℕ

/-- DELETE /api/quotes/:id (src/unnamed/part_004, quotes router 631-653):
first runs DELETE FROM quote_items WHERE quote_id = id with no
organization filter, then DELETE FROM quotes WHERE id = id AND
organization_id = callerOrg RETURNING id, and answers 404 when the second
delete returns no row. The item delete has already taken effect either way. -/
def deleteQuoteRoute (db : Db) (callerOrg qid : ℕ) : HttpStatus × Db :=
  let items2 := db.quote_items.filter (fun it => decide (it.quote_id ≠ qid))
  let deleted := db.quotes.filter (fun q => decide (q.id = qid ∧ q.organization_id = callerOrg))
  let quotes2 := db.quotes.filter (fun q => decide (¬ (q.id = qid ∧ q.organization_id = callerOrg)))
  let db2 : Db := ⟨quotes2, items2⟩
  if deleted.length = 0 then (404, db2) else (200, db2)

/-- A database holding one quote of organization 1 with one line item,
seen by a caller whose token carries organization 2. -/
def crossTenantDb : Db :=
  { quotes := [⟨1, 1, .draft⟩], quote_items := [⟨10, 1⟩] }

/-- Claim C3: the quote delete handler run by a caller of organization 2
against the quote of organization 1 answers 404 (the quote is not deleted),
yet the line item of organization 1 has been deleted: the item delete runs
before any ownership check, so a row belonging to another organization is
modified, contradicting the ownership invariant and the handlers own aim of
replicating the (ownership-guarded) cascade. -/
theorem C3_cross_tenant_item_delete :
    deleteQuoteRoute crossTenantDb 2 1 =
      (404, ⟨[⟨1, 1, .draft⟩], []⟩) := by
  decide

/-- POST /api/quotes/:id/finalize (src/unnamed/part_004, quotes router
603-624): UPDATE quotes SET status = sent WHERE id = id AND
organization_id = callerOrg RETURNING *, answering 404 when no row
matched; there is no condition on the current status. -/
def finalizeQuoteRoute (db : Db) (callerOrg qid : ℕ) : HttpStatus × Db :=
  let hits := fun (q : QuoteRow) => decide (q.id = qid ∧ q.organization_id = callerOrg)
  let quotes2 := db.quotes.map (fun q => if hits q then { q with status := .sent } else q)
  let returned := db.quotes.filter hits
  if returned.length = 0 then (404, ⟨quotes2, db.quote_items⟩)
  else (200, ⟨quotes2, db.quote_items⟩)

/-- Claim C5 (counterexample): finalizing a quote whose status is rejected
(a terminal state) succeeds and moves it to sent: the update carries no
status guard, so the terminal state is left and the order is walked
backwards. -/
theorem C5_counterexample :
    finalizeQuoteRoute ⟨[⟨1, 1, .rejected⟩], []⟩ 1 1 =
      (200, ⟨[⟨1, 1, .sent⟩], []⟩) := by
  decide

/-- Claim C5 (amended): the finalize handler sets the status of every quote
matching the requested id and the callers organization to sent, whatever
its current status - including the terminal rejected and expired states -
because the update has no status condition. -/
theorem C5_amended (db : Db) (org qid : ℕ) (q : QuoteRow)
    (hq : q ∈ db.quotes) (hid : q.id = qid) (horg : q.organization_id = org) :
    { q with status := QuoteStatus.sent } ∈ (finalizeQuoteRoute db org qid).2.quotes := by
  have hmem : { q with status := QuoteStatus.sent } ∈
      db.quotes.map (fun r =>
        if decide (r.id = qid ∧ r.organization_id = org) then { r with status := .sent } else r) := by
    have : (if decide (q.id = qid ∧ q.organization_id = org) then
        { q with status := QuoteStatus.sent } else q) = { q with status := QuoteStatus.sent } := by
      simp [hid, horg]
    exact this ▸ List.mem_map_of_mem _ hq
  simp only [finalizeQuoteRoute]
  split <;> exact hmem

/-- Claim C5 (amended, witness): on a database holding a single rejected
quote of organization 1, finalize leaves it with status sent. -/
theorem C5_amended_witness :
    (⟨1, 1, QuoteStatus.rejected⟩ : QuoteRow) ∈ (⟨[⟨1, 1, .rejected⟩], []⟩ : Db).quotes ∧
    ({ (⟨1, 1, QuoteStatus.rejected⟩ : QuoteRow) with status := QuoteStatus.sent } ∈
      (finalizeQuoteRoute ⟨[⟨1, 1, .rejected⟩], []⟩ 1 1).2.quotes) :=
  ⟨by decide,
   C5_amended ⟨[⟨1, 1, .rejected⟩], []⟩ 1 1 ⟨1, 1, .rejected⟩ (by decide) rfl rfl⟩

/-- A pricing-settings document as the settings routes see it: a JSON value
of any shape. A numeric field is none when missing or not a number
(typeof checks in src/settings.js), and an array field is none when missing
or not an array. -/
structure SettingsDoc where
  baseFreightRate : Option ℚ
  perMileRate : Option ℚ
  palletBreakSurcharge : Option ℚ
  minFreight : Option ℚ
  marginFoodBank : Option ℚ
  marginSchool : Option ℚ
  marginCorporate : Option ℚ
  volumeTiers : Option (List VolumeTier)
  regions : Option (List Region)
deriving DecidableEq

/-- Whether an optional numeric field holds a non-negative number
(typeof settings.x === number and x >= 0 in src/settings.js). -/
def numOk (v : Option ℚ) : Bool :=
  match v with
  | none => false
  | some q => decide (0 ≤ q)

/-- validateSettings (src/settings.js 172-189): checks that the three rate
fields are non-negative numbers and that volumeTiers and regions are arrays,
returning the first error message, or none when the document is accepted.
No other structure of the tiers is examined. -/
def validateSettings (s : SettingsDoc) : Option String :=
  if ¬ numOk s.baseFreightRate then some "Base freight rate must be a non-negative number"
  else if ¬ numOk s.perMileRate then some "Per-mile rate must be a non-negative number"
  else if ¬ numOk s.palletBreakSurcharge then
    some "Pallet break surcharge must be a non-negative number"
  else if s.volumeTiers.isNone then some "Volume tiers must be an array"
  else if s.regions.isNone then some "Regions must be an array"
  else none

/-- getDefaultSettings (src/settings.js 145-170), as a settings document. -/
def getDefaultSettings : SettingsDoc :=
  { baseFreightRate := some 125
    perMileRate := some 0.85
    palletBreakSurcharge := some 15
    minFreight := some 75
    marginFoodBank := some 20
    marginSchool := some 15
    marginCorporate := some 25
    volumeTiers := some defaultVolumeTiers
    regions := some defaultRegions }

/-- Whether a tier contains a case count (inclusive bounds). -/
def tierMatches (t : VolumeTier) (n : ℕ) : Bool :=
  decide (t.minCases ≤ n ∧ n ≤ t.maxCases)

/-- A tier list covers every case count in [0, infinity). -/
def coversAllCases (tiers : List VolumeTier) : Prop :=
  ∀ n : ℕ, ∃ t ∈ tiers, tierMatches t n

/-- Every tier of a list has minCases at most maxCases. -/
def tiersOrdered (tiers : List VolumeTier) : Prop :=
  ∀ t ∈ tiers, t.minCases ≤ t.maxCases

/-- A settings document with empty tier and region arrays and all rates
zero: accepted by validateSettings although its tiers cover nothing. -/
def emptyTiersDoc : SettingsDoc :=
  { baseFreightRate := some 0
    perMileRate := some 0
    palletBreakSurcharge := some 0
    minFreight := none
    marginFoodBank := none
    marginSchool := none
    marginCorporate := none
    volumeTiers := some []
    regions := some [] }

/-- validateSettings accepts the default settings document. -/
theorem validateSettings_default : validateSettings getDefaultSettings = none := by
  norm_num [validateSettings, numOk, getDefaultSettings]

/-- validateSettings accepts the document with empty tier and region lists. -/
theorem validateSettings_emptyTiers : validateSettings emptyTiersDoc = none := by
  norm_num [validateSettings, numOk, emptyTiersDoc]

/-- Claim C4 (counterexample): the default settings document the system
produces has volume tiers reaching only to 9999 cases, so they do not cover
[0, infinity) (10000 cases match no tier); and settings validation accepts a
document whose tier list is empty, which covers no case count at all. -/
theorem C4_counterexample :
    validateSettings getDefaultSettings = none ∧
    ¬ coversAllCases defaultVolumeTiers ∧
    validateSettings emptyTiersDoc = none ∧
    ¬ coversAllCases ([] : List VolumeTier) := by
  refine ⟨validateSettings_default, fun h => absurd (h 10000) (by decide),
    validateSettings_emptyTiers, fun h => absurd (h 0) (by decide)⟩

/-- Claim C4 (amended): every tier of the default settings satisfies
minCases at most maxCases, the default document passes validation, and the
default tiers cover every case count up to 9999 - but validation itself
checks only that volumeTiers is an array, and coverage of [0, infinity)
does not hold. -/
theorem C4_amended (n : ℕ) (hn : n ≤ 9999) :
    validateSettings getDefaultSettings = none ∧
    tiersOrdered defaultVolumeTiers ∧
    ∃ t ∈ defaultVolumeTiers, tierMatches t n := by
  refine ⟨validateSettings_default, fun t ht => by fin_cases ht <;> decide, ?_⟩
  by_cases h1 : n ≤ 50
  · refine ⟨⟨0, 50, 0⟩, by simp [defaultVolumeTiers], ?_⟩
    simp only [tierMatches, decide_eq_true_eq]
    omega
  · by_cases h2 : n ≤ 150
    · refine ⟨⟨51, 150, 8⟩, by simp [defaultVolumeTiers], ?_⟩
      simp only [tierMatches, decide_eq_true_eq]
      omega
    · by_cases h3 : n ≤ 300
      · refine ⟨⟨151, 300, 15⟩, by simp [defaultVolumeTiers], ?_⟩
        simp only [tierMatches, decide_eq_true_eq]
        omega
      · refine ⟨⟨301, 9999, 22⟩, by simp [defaultVolumeTiers], ?_⟩
        simp only [tierMatches, decide_eq_true_eq]
        omega

/-- Claim C4 (amended, witness): at 100 cases the default tiers match. -/
theorem C4_amended_witness :
    (100 ≤ 9999) ∧
    (validateSettings getDefaultSettings = none ∧
     tiersOrdered defaultVolumeTiers ∧
     ∃ t ∈ defaultVolumeTiers, tierMatches t 100) :=
  ⟨by decide, C4_amended 100 (by decide)⟩

/-- GET /api/settings (src/settings.js 19-37): selects the settings row of
the callers organization; when no row exists it answers 200 with
getDefaultSettings instead of an error, and 200 with the stored document
otherwise. The rows of the pricing_settings table are modelled as pairs of
organization id and document. -/
def getSettingsRoute (rows : List (ℕ × SettingsDoc)) (orgId : ℕ) :
    HttpStatus × SettingsDoc :=
  match rows.find? (fun r => r.1 == orgId) with
  | none => (200, getDefaultSettings)
  | some r => (200, r.2)

/-- Claim C7: for an organization with no pricing-settings row, reading the
settings succeeds with the documented default settings document - the
missing configuration is not treated as an error. -/
theorem C7_default_on_missing (rows : List (ℕ × SettingsDoc)) (orgId : ℕ)
    (h : ∀ r ∈ rows, r.1 ≠ orgId) :
    getSettingsRoute rows orgId = (200, getDefaultSettings) := by
  unfold getSettingsRoute
  have hfind : rows.find? (fun r => r.1 == orgId) = none := by
    rw [List.find?_eq_none]
    intro r hr
    simpa using h r hr
  rw [hfind]

/-- Claim C7 (witness): with an empty pricing_settings table, organization 7
reads the default settings document with status 200. -/
theorem C7_witness :
    (∀ r ∈ ([] : List (ℕ × SettingsDoc)), r.1 ≠ 7) ∧
    getSettingsRoute [] 7 = (200, getDefaultSettings) :=
  ⟨by simp, C7_default_on_missing [] 7 (by simp)⟩

/-- A byte, for modelling crypto.randomBytes output and PBKDF2 digests. -/
abbrev Byte := Fin 256

/-- The lowercase hex digit character of a value (taken modulo 16), as in
Buffer.toString with the hex encoding: 0-9 then a-f. -/
def hexDigitChar (n : ℕ) : Char :=
  if n % 16 < 10 then Char.ofNat (48 + n % 16) else Char.ofNat (87 + n % 16)

/-- Hex encoding of a byte list (Buffer.toString with the hex encoding):
two lowercase hex digits per byte. -/
def toHex (bs : List Byte) : List Char :=
  bs.foldr (fun b acc => hexDigitChar (b.val / 16) :: hexDigitChar (b.val % 16) :: acc) []

/-- JS String.split on the colon character, over a character list: the list
of colon-free segments (an empty input yields one empty segment, as in JS). -/
def splitColon : List Char → List (List Char)
  | [] => [[]]
  | c :: rest =>
    let r := splitColon rest
    if c = ':' then [] :: r
    else (c :: r.headI) :: r.tail

/-- hashPassword (src/unnamed/part_001 186-190): hex-encodes 16 random salt
bytes, hex-encodes the PBKDF2 digest of the password with that salt, and
stores salt, colon, hash. The random byte source and the PBKDF2 primitive
(password and salt to 64 digest bytes) are taken as parameters; the source
passes both as strings, modelled as character lists. -/
def hashPassword (pbkdf2 : List Char → List Char → List Byte)
    (saltBytes : List Byte) (password : List Char) : List Char :=
  let salt := toHex saltBytes
  let hash := toHex (pbkdf2 password salt)
  salt ++ [':'] ++ hash

/-- verifyPassword (src/unnamed/part_001 192-196): splits the stored value
on colons, takes the first part as the salt and the second as the hash,
recomputes the PBKDF2 digest of the candidate password with that salt, and
compares hex strings. -/
def verifyPassword (pbkdf2 : List Char → List Char → List Byte)
    (password stored : List Char) : Bool :=
  let parts := splitColon stored
  let salt := parts.getD 0 []
  let hash := parts.getD 1 []
  let verifyHash := toHex (pbkdf2 password salt)
  hash == verifyHash

/-- A hex digit character is never the colon. -/
theorem hexDigitChar_ne_colon (n : ℕ) : hexDigitChar n ≠ ':' := by
  have h : n % 16 < 16 := Nat.mod_lt _ (by norm_num)
  unfold hexDigitChar
  revert h
  generalize n % 16 = k
  intro h
  interval_cases k <;> decide

/-- Hex-encoded byte lists never contain the colon. -/
theorem colon_not_mem_toHex (bs : List Byte) : ':' ∉ toHex bs := by
  induction bs with
  | nil => simp [toHex]
  | cons b rest ih =>
    simp only [toHex, List.foldr_cons, List.mem_cons] at *
    rintro (h | h | h)
    · exact hexDigitChar_ne_colon _ h.symm
    · exact hexDigitChar_ne_colon _ h.symm
    · exact ih h

/-- Splitting a colon-free list yields that single segment. -/
theorem splitColon_no_colon (l : List Char) (h : ':' ∉ l) : splitColon l = [l] := by
  induction l with
  | nil => rfl
  | cons c rest ih =>
    have hc : c ≠ ':' := fun hcc => h (hcc ▸ List.mem_cons_self c rest)
    have hr : ':' ∉ rest := fun hm => h (List.mem_cons_of_mem c hm)
    simp only [splitColon, if_neg hc, ih hr]
    rfl

/-- Splitting a list whose first colon separates a colon-free head from a
tail yields the head followed by the split of the tail. -/
theorem splitColon_append (a b : List Char) (ha : ':' ∉ a) :
    splitColon (a ++ [':'] ++ b) = a :: splitColon b := by
  induction a with
  | nil => simp [splitColon]
  | cons c rest ih =>
    have hc : c ≠ ':' := fun hcc => ha (hcc ▸ List.mem_cons_self c rest)
    have hr : ':' ∉ rest := fun hm => ha (List.mem_cons_of_mem c hm)
    simp only [List.cons_append, splitColon, if_neg hc, List.append_eq, ih hr]
    rfl

/-- Claim C8: verifying a password against the stored value produced by
hashing that same password succeeds, for every password, salt byte list and
PBKDF2 function: the hex salt and hex digest contain no colon, so the split
recovers exactly the salt and digest that hashPassword stored, and the
recomputed digest matches. -/
theorem C8_verify_roundtrip (pbkdf2 : List Char → List Char → List Byte)
    (saltBytes : List Byte) (password : List Char) :
    verifyPassword pbkdf2 password (hashPassword pbkdf2 saltBytes password) = true := by
  unfold hashPassword verifyPassword
  rw [splitColon_append _ _ (colon_not_mem_toHex saltBytes),
    splitColon_no_colon _ (colon_not_mem_toHex (pbkdf2 password (toHex saltBytes)))]
  simp

/-- A stand-in PBKDF2 function for the witness: a constant 64-byte digest. -/
def constDigest : List Char → List Char → List Byte :=
  fun _ _ => List.replicate 64 (37 : Byte)

/-- Claim C8 (witness): the round trip holds at a concrete password, a
concrete 16-byte salt and the stand-in digest function. -/
theorem C8_witness :
    verifyPassword constDigest "password123".data
      (hashPassword constDigest (List.replicate 16 (7 : Byte)) "password123".data) = true :=
  C8_verify_roundtrip constDigest (List.replicate 16 (7 : Byte)) "password123".data

/-- The payload of a verified bearer token (generateToken in
src/unnamed/part_004: user id, email, organization id, role). -/
structure AuthToken where
  userId : ℕ
  email : String
  organizationId : ℕ
  role : String
deriving DecidableEq

/-- optionalAuth (src/unnamed/part_004 122-134): when an Authorization
header starting with Bearer is present, the second space-separated token is
verified (jwt.verify, abstracted as a parameter returning none on failure)
and req.user is set to the payload, or to null when verification throws;
with no such header req.user is null. next() is called on every path: the
middleware never sends a response, so no 401 can originate here. -/
def optionalAuth (verify : String → Option AuthToken) (authHeader : Option String) :
    Option AuthToken :=
  match authHeader with
  | some h =>
    if h.startsWith "Bearer " then verify ((h.splitOn " ").getD 1 "")
    else none
  | none => none

/-- A response of an AI route: status code and body text. -/
structure AiResponse where
  status : HttpStatus
  body : String
deriving DecidableEq

/-- Outcome of the call to the external Anthropic API, abstracted: a text
reply, or an upstream error carrying an HTTP status. -/
inductive AiOutcome where
  | reply (text : String)
  | apiError (status : ℕ)
deriving DecidableEq

/-- POST /api/ai/chat (src/ai.js 27-81), composed behind optionalAuth:
rejects a missing or empty message with 400, a missing API key with 503,
and otherwise forwards to the external API, mapping an upstream 401 to 503,
an upstream 429 to 429, and any other failure to 500. The request user
plays no further role in the handler. -/
def aiChatRoute (verify : String → Option AuthToken) (authHeader : Option String)
    (message : Option String) (hasApiKey : Bool) (callApi : AiOutcome) : AiResponse :=
  let _user := optionalAuth verify authHeader
  match message with
  | none => ⟨400, "Message is required"⟩
  | some m =>
    if m = "" then ⟨400, "Message is required"⟩
    else if ¬ hasApiKey then ⟨503, "AI service not configured. Please set ANTHROPIC_API_KEY."⟩
    else
      match callApi with
      | .reply t => ⟨200, t⟩
      | .apiError s =>
        if s = 401 then ⟨503, "AI service authentication failed"⟩
        else if s = 429 then ⟨429, "AI rate limit exceeded. Please try again later."⟩
        else ⟨500, "Failed to get AI response"⟩

/-- POST /api/ai/analyze-quote (src/ai.js 88-127), composed behind
optionalAuth: rejects a missing quote or empty item list with 400, and
otherwise forwards to the external API, any failure becoming 500. -/
def analyzeQuoteRoute (verify : String → Option AuthToken) (authHeader : Option String)
    (items : Option (List ContextItem)) (callApi : AiOutcome) : AiResponse :=
  let _user := optionalAuth verify authHeader
  match items with
  | none => ⟨400, "Quote with items is required"⟩
  | some l =>
    if l.length = 0 then ⟨400, "Quote with items is required"⟩
    else
      match callApi with
      | .reply t => ⟨200, t⟩
      | .apiError _ => ⟨500, "Failed to analyze quote"⟩

/-- POST /api/ai/suggest-margin (src/ai.js 134-167), composed behind
optionalAuth: no validation at all; forwards to the external API, any
failure becoming 500. -/
def suggestMarginRoute (verify : String → Option AuthToken) (authHeader : Option String)
    (callApi : AiOutcome) : AiResponse :=
  let _user := optionalAuth verify authHeader
  match callApi with
  | .reply t => ⟨200, t⟩
  | .apiError _ => ⟨500, "Failed to get margin suggestion"⟩

/-- Claim C9: none of the three AI routes ever answers 401, for any
Authorization header (absent, malformed or carrying an invalid token), any
verifier, any body and any upstream outcome: optionalAuth never rejects,
an always-failing verifier leaves the request user null, the chat route
answers exactly as it would with no header at all (the handler runs
identically), and every handler response status differs from 401 (an
upstream 401 is mapped to 503). -/
theorem C9_no_401 (verify : String → Option AuthToken) (authHeader : Option String)
    (message : Option String) (hasApiKey : Bool)
    (items : Option (List ContextItem)) (chatApi analyzeApi suggestApi : AiOutcome) :
    (aiChatRoute verify authHeader message hasApiKey chatApi).status ≠ 401 ∧
    (analyzeQuoteRoute verify authHeader items analyzeApi).status ≠ 401 ∧
    (suggestMarginRoute verify authHeader suggestApi).status ≠ 401 ∧
    optionalAuth (fun _ => none) authHeader = none ∧
    aiChatRoute verify authHeader message hasApiKey chatApi =
      aiChatRoute verify none message hasApiKey chatApi := by
  refine ⟨?_, ?_, ?_, by cases authHeader <;> simp [optionalAuth], rfl⟩
  · rcases message with _ | m
    · simp [aiChatRoute]
    · rcases chatApi with t | s
      · by_cases hm : m = "" <;> by_cases hk : hasApiKey = true <;>
          simp [aiChatRoute, hm, hk]
      · by_cases hm : m = "" <;> by_cases hk : hasApiKey = true <;>
          by_cases h1 : s = 401 <;> by_cases h2 : s = 429 <;>
          simp [aiChatRoute, hm, hk, h1, h2]
  · rcases items with _ | l
    · simp [analyzeQuoteRoute]
    · rcases analyzeApi with t | s <;> by_cases hl : l.length = 0 <;>
        simp [analyzeQuoteRoute, hl]
  · rcases suggestApi with t | s <;> simp [suggestMarginRoute]

/-- Claim C9 (witness): with an invalid bearer token, no API key configured
and an upstream 401, no route answers 401 and the chat response matches the
unauthenticated one. -/
theorem C9_witness :
    (aiChatRoute (fun _ => none) (some "Bearer bad") (some "hi") false
      (.apiError 401)).status ≠ 401 ∧
    (analyzeQuoteRoute (fun _ => none) (some "Bearer bad") (some [sampleItem])
      (.apiError 401)).status ≠ 401 ∧
    (suggestMarginRoute (fun _ => none) (some "Bearer bad")
      (.apiError 401)).status ≠ 401 ∧
    optionalAuth (fun _ => none) (some "Bearer bad") = none ∧
    aiChatRoute (fun _ => none) (some "Bearer bad") (some "hi") false (.apiError 401) =
      aiChatRoute (fun _ => none) none (some "hi") false (.apiError 401) :=
  C9_no_401 (fun _ => none) (some "Bearer bad") (some "hi") false (some [sampleItem])
    (.apiError 401) (.apiError 401) (.apiError 401)

/-- A row of the products table (the columns the create handler writes that
the claims read). -/
abbrev ProductTable := List Product

/-- JS falsiness of an optional numeric body field: absent and zero are
both falsy (NaN has no rational counterpart; empty strings are covered by
the string case). -/
def falsyNum : Option ℚ → Bool
  | none => true
  | some q => q == 0

/-- JS falsiness of an optional string body field: absent and empty are
falsy. -/
def falsyStr : Option String → Bool
  | none => true
  | some s => s == ""

/-- POST /api/products (src/unnamed/part_001 319-344): when name or
costPerCase is falsy the handler answers 400 with the message
Name and cost per case are required and inserts nothing; otherwise it
inserts the row (bipoc and gapCertified defaulting to false, available
defaulting to true unless explicitly false) and answers 201. -/
def createProductRoute (db : ProductTable) (orgId newId : ℕ)
    (name : Option String) (casesPerPallet : Option ℕ) (costPerCase : Option ℚ)
    (bipoc gapCertified available : Option Bool) :
    HttpStatus × String × ProductTable :=
  if falsyStr name || falsyNum costPerCase then
    (400, "Name and cost per case are required", db)
  else
    (201, "created",
      db ++ [{ id := newId
               organization_id := orgId
               name := name.getD ""
               casesPerPallet := casesPerPallet.getD 0
               costPerCase := costPerCase.getD 0
               bipoc := bipoc.getD false
               gapCertified := gapCertified.getD false
               available := available != some false }])

/-- Claim C10: a product-creation request whose costPerCase is exactly 0 is
rejected with 400 and the message Name and cost per case are required, and
the products table is unchanged, whatever the rest of the body: the handler
tests costPerCase for JS falsiness, and 0 is falsy. -/
theorem C10_zero_cost_rejected (db : ProductTable) (orgId newId : ℕ)
    (name : String) (cpp : Option ℕ) (bipoc gapCertified available : Option Bool)
    (hname : name ≠ "") :
    createProductRoute db orgId newId (some name) cpp (some 0) bipoc gapCertified available =
      (400, "Name and cost per case are required", db) := by
  unfold createProductRoute
  have h1 : falsyStr (some name) = false := by
    simp [falsyStr, hname]
  have h2 : falsyNum (some 0) = true := by
    simp [falsyNum]
  rw [h1, h2]
  rfl

/-- Claim C10 (witness): creating the product Apples with cost 0 on an empty
table is rejected with 400 and the table stays empty. -/
theorem C10_witness :
    ("Apples" ≠ "") ∧
    createProductRoute [] 1 2 (some "Apples") (some 49) (some 0) none none none =
      (400, "Name and cost per case are required", []) :=
  ⟨by decide, C10_zero_cost_rejected [] 1 2 "Apples" (some 49) none none none (by decide)⟩

end QuoteBuilder
